import Mathlib

/-!
Shallow embedding of the scriptr backend's template-rendering and caption
services (src/backend/app/services/template_service.py,
src/backend/app/services/caption_service.py and the
src/backend/app/api/v1/endpoints/templates.py endpoints), together with
theorems settling the specification claims about them.

Python floats are modelled by `Rat`; every concrete input used in a theorem
is exactly representable in binary floating point and small enough that the
Python float arithmetic it goes through is exact, so the rational model
agrees with the source on those inputs.  Rational arithmetic is written with
the core `Rat.add`/`Rat.sub`/`Rat.mul`/`Rat.div`/`Rat.blt` operations (which
are definitionally equal to the `ℚ` field operations) so that concrete
computations reduce inside the kernel.
-/

attribute [local semireducible] Rat.add Rat.sub Rat.mul Rat.inv

namespace Scriptr

/-! ## Python numeric primitives over `Rat` -/

/-- Rational number standing for the Python float of an integer. -/
def ratOfInt (n : Int) : Rat := mkRat n 1

/-- Floor of a rational, as Python's `//` and `math.floor` compute it. -/
def ratFloor (q : Rat) : Int := Int.fdiv q.num q.den

/-- Truncation toward zero: Python's `int(float)`. -/
def ratTrunc (q : Rat) : Int := Int.tdiv q.num q.den

/-- Python float `//` (floor division, result kept rational like the float result). -/
def pyFloorDiv (q m : Rat) : Rat := ratOfInt (ratFloor (Rat.div q m))

/-- Python float `%` (sign follows the divisor; our uses have positive divisors). -/
def pyMod (q m : Rat) : Rat := Rat.sub q (Rat.mul m (ratOfInt (ratFloor (Rat.div q m))))

/-- Python 3 `round` to an integer: nearest, ties to even (banker's rounding). -/
def pyRound (q : Rat) : Int :=
  let f := ratFloor q
  let frac := Rat.sub q (ratOfInt f)
  if Rat.blt frac (mkRat 1 2) then f
  else if Rat.blt (mkRat 1 2) frac then f + 1
  else if f % 2 = 0 then f else f + 1

/-- Python `min` on two floats (returns the first argument on ties). -/
def pyMin (a b : Rat) : Rat := if Rat.blt b a then b else a

/-- Python `max` on two floats (returns the first argument on ties). -/
def pyMax (a b : Rat) : Rat := if Rat.blt a b then b else a

/-- Left-pad a string with `'0'` up to `width`, as `"{:0Nd}"` does for nonnegative ints. -/
def padZeros (width : Nat) (s : String) : String :=
  if width ≤ s.length then s else String.mk (List.replicate (width - s.length) '0') ++ s

/-- Python `f"{n:02d}"` for the nonnegative ints produced by the time formatters. -/
def fmt02 (n : Int) : String := padZeros 2 (toString n)

/-- Python `f"{n:03d}"` for the nonnegative ints produced by the time formatters. -/
def fmt03 (n : Int) : String := padZeros 3 (toString n)

/-- Uppercase hexadecimal digits of a natural number. -/
def natToHex (n : Nat) : String := String.mk ((Nat.toDigits 16 n).map Char.toUpper)

/-- Python `f"{n:02X}"`. -/
def intToHex2 (n : Int) : String :=
  if n < 0 then "-" ++ natToHex n.natAbs else padZeros 2 (natToHex n.natAbs)

/-! ## caption_service time formatters

Embeddings of `CaptionService._format_time_srt`, `_format_time_vtt`,
`_format_time_ass` (src/backend/app/services/caption_service.py:664-686).
-/

/-- Embeds `CaptionService._format_time_srt` (`HH:MM:SS,mmm`). -/
def formatTimeSrt (seconds : Rat) : String :=
  let hours := ratTrunc (pyFloorDiv seconds (mkRat 3600 1))
  let minutes := ratTrunc (pyFloorDiv (pyMod seconds (mkRat 3600 1)) (mkRat 60 1))
  let secs := ratTrunc (pyMod seconds (mkRat 60 1))
  let millis := ratTrunc (Rat.mul (pyMod seconds (mkRat 1 1)) (mkRat 1000 1))
  fmt02 hours ++ ":" ++ fmt02 minutes ++ ":" ++ fmt02 secs ++ "," ++ fmt03 millis

/-- Embeds `CaptionService._format_time_vtt` (`HH:MM:SS.mmm`). -/
def formatTimeVtt (seconds : Rat) : String :=
  let hours := ratTrunc (pyFloorDiv seconds (mkRat 3600 1))
  let minutes := ratTrunc (pyFloorDiv (pyMod seconds (mkRat 3600 1)) (mkRat 60 1))
  let secs := ratTrunc (pyMod seconds (mkRat 60 1))
  let millis := ratTrunc (Rat.mul (pyMod seconds (mkRat 1 1)) (mkRat 1000 1))
  fmt02 hours ++ ":" ++ fmt02 minutes ++ ":" ++ fmt02 secs ++ "." ++ fmt03 millis

/-- Embeds `CaptionService._format_time_ass` (`H:MM:SS.cc`, hour unpadded). -/
def formatTimeAss (seconds : Rat) : String :=
  let hours := ratTrunc (pyFloorDiv seconds (mkRat 3600 1))
  let minutes := ratTrunc (pyFloorDiv (pyMod seconds (mkRat 3600 1)) (mkRat 60 1))
  let secs := ratTrunc (pyMod seconds (mkRat 60 1))
  let centis := ratTrunc (Rat.mul (pyMod seconds (mkRat 1 1)) (mkRat 100 1))
  toString hours ++ ":" ++ fmt02 minutes ++ ":" ++ fmt02 secs ++ "." ++ fmt02 centis

/-- The `f"{start} --> {end}"` cue timing line of `_generate_srt`. -/
def srtTimingLine (s e : Rat) : String := formatTimeSrt s ++ " --> " ++ formatTimeSrt e

/-- The `f"{start} --> {end}"` cue timing line of `_generate_vtt`. -/
def vttTimingLine (s e : Rat) : String := formatTimeVtt s ++ " --> " ++ formatTimeVtt e

/-! ## caption_service color conversions -/

/-- Value of one hexadecimal digit character, if it is one. -/
def hexDigitVal (ch : Char) : Option Nat :=
  if ch.isDigit then some (ch.toNat - 48)
  else if 97 ≤ ch.toNat ∧ ch.toNat ≤ 102 then some (ch.toNat - 87)
  else if 65 ≤ ch.toNat ∧ ch.toNat ≤ 70 then some (ch.toNat - 55)
  else none

/-- Python `int(c[i:i+2], 16)`; `none` models the `ValueError` it can raise. -/
def hexPairVal (cs : List Char) (i : Nat) : Option Nat := do
  let h ← (cs.get? i).bind hexDigitVal
  let l ← (cs.get? (i + 1)).bind hexDigitVal
  pure (16 * h + l)

/-- Python `str.lstrip("#")`. -/
def lstripHash (s : String) : String := String.mk (s.toList.dropWhile (fun ch => ch = '#'))

/-- Python `str.strip()` (whitespace at both ends), written over the character
list so it reduces in the kernel. -/
def pyStrip (s : String) : String :=
  String.mk (((s.toList.dropWhile Char.isWhitespace).reverse.dropWhile Char.isWhitespace).reverse)

/-- Python `str.startswith(p)`, written over the character list. -/
def strStartsWith (s p : String) : Bool := p.toList.isPrefixOf s.toList

/-- Split a character list at every occurrence of `c` (Python `str.split(",")`). -/
def splitOnCharAux (c : Char) : List Char → List Char → List (List Char)
  | [], acc => [acc.reverse]
  | x :: xs, acc =>
    if x = c then acc.reverse :: splitOnCharAux c xs []
    else splitOnCharAux c xs (x :: acc)

/-- Python `str.split(ch)` for a one-character separator. -/
def splitOnChar (c : Char) (s : String) : List String :=
  (splitOnCharAux c s.toList []).map String.mk

/-- Embeds `CaptionService._hex_to_ass_color` (caption_service.py:487-495).
The Python parameter is a `str` (`""` standing for every falsy input);
`none` models a raised `ValueError` from `int(_, 16)` on non-hex characters. -/
def hexToAssColor (hexColor : String) (alpha : Int) : Option String :=
  let c0 := lstripHash (if hexColor = "" then "#FFFFFF" else hexColor)
  let c := if c0.length ≠ 6 then "FFFFFF" else c0
  do
    let r ← hexPairVal c.toList 0
    let g ← hexPairVal c.toList 2
    let b ← hexPairVal c.toList 4
    pure ("&H" ++ intToHex2 alpha ++ intToHex2 (b : Int) ++ intToHex2 (g : Int)
      ++ intToHex2 (r : Int))

/-- Folds decimal digit characters into a natural number. -/
def digitsToNat (ds : List Char) : Nat := ds.foldl (fun a c => 10 * a + (c.toNat - 48)) 0

/-- Optional leading sign of a Python numeric literal. -/
def parseSign : List Char → (Int × List Char)
  | '-' :: rest => (-1, rest)
  | '+' :: rest => (1, rest)
  | cs => (1, cs)

/-- Scale a mantissa by a signed power of ten. -/
def applyExpTen (mant : Rat) (e : Int) : Rat :=
  if 0 ≤ e then Rat.mul mant (mkRat ((10 : Int) ^ e.toNat) 1)
  else Rat.div mant (mkRat ((10 : Int) ^ (-e).toNat) 1)

/-- Exponent suffix of a float literal (`e±digits`). -/
def parseExpSuffix (mant : Rat) (cs : List Char) : Option Rat :=
  let (sgn, cs') := parseSign cs
  let ds := cs'.takeWhile Char.isDigit
  let rest := cs'.dropWhile Char.isDigit
  if ds = [] ∨ rest ≠ [] then none
  else some (applyExpTen mant (sgn * (digitsToNat ds : Int)))

/-- Decimal float literal (sign, digits, optional fraction, optional exponent). -/
def parseFloatCore (cs : List Char) : Option Rat :=
  let (sgn, cs₁) := parseSign cs
  let intDigits := cs₁.takeWhile Char.isDigit
  let rest₁ := cs₁.dropWhile Char.isDigit
  let (fracDigits, rest₂) :=
    match rest₁ with
    | '.' :: r => (r.takeWhile Char.isDigit, r.dropWhile Char.isDigit)
    | _ => ([], rest₁)
  if intDigits = [] ∧ fracDigits = [] then none
  else
    let mant : Rat := Rat.mul (mkRat sgn 1)
      (Rat.add (mkRat (digitsToNat intDigits : Int) 1)
        (mkRat (digitsToNat fracDigits : Int) (10 ^ fracDigits.length)))
    match rest₂ with
    | [] => some mant
    | 'e' :: r => parseExpSuffix mant r
    | 'E' :: r => parseExpSuffix mant r
    | _ => none

/-- Python `float(str)` on finite decimal literals (whitespace-stripped);
`none` models a raised `ValueError`. -/
def pyFloat (s : String) : Option Rat := parseFloatCore (pyStrip s).toList

/-- Python `str.find(ch)` (index of first occurrence, `-1` if absent). -/
def pyFindIdx (cs : List Char) (c : Char) : Int :=
  match cs.indexOf? c with
  | some i => (i : Int)
  | none => -1

/-- Python slice `cs[a:b]` with negative-index normalization. -/
def pySlice (cs : List Char) (a b : Int) : List Char :=
  let n : Int := cs.length
  let norm : Int → Int := fun i => if i < 0 then max 0 (n + i) else min i n
  ((cs.take (norm b).toNat).drop (norm a).toNat)

/-- Alpha byte computed inside the `rgba(...)` branch of
`_rgba_to_ass_back_color`: `int(max(0.0, min(1.0, 1.0 - a)) * 255)`. -/
def rgbaAlphaByte (a : Rat) : Int :=
  ratTrunc (Rat.mul (pyMax (mkRat 0 1) (pyMin (mkRat 1 1) (Rat.sub (mkRat 1 1) a))) (mkRat 255 1))

/-- The `try` body of the `rgba(...)` branch of `_rgba_to_ass_back_color`
(caption_service.py:505-513); `none` models any exception caught by its
`except`. -/
def rgbaTry (s : String) : Option String := do
  let inner := pySlice s.toList (pyFindIdx s.toList '(' + 1) (pyFindIdx s.toList ')')
  let parts := (splitOnChar ',' (String.mk inner)).map pyStrip
  let p0 ← parts.get? 0
  let p1 ← parts.get? 1
  let p2 ← parts.get? 2
  let p3 ← parts.get? 3
  let r := ratTrunc (← pyFloat p0)
  let g := ratTrunc (← pyFloat p1)
  let b := ratTrunc (← pyFloat p2)
  let a ← pyFloat p3
  let alpha := rgbaAlphaByte a
  pure ("&H" ++ intToHex2 alpha ++ intToHex2 b ++ intToHex2 g ++ intToHex2 r)

/-- Embeds `CaptionService._rgba_to_ass_back_color` (caption_service.py:497-518). -/
def rgbaToAssBackColor (rgba : Option String) : Option String :=
  match rgba with
  | none => hexToAssColor "#000000" 0x80
  | some s0 =>
    if s0 = "" then hexToAssColor "#000000" 0x80
    else
      let s := pyStrip s0
      if strStartsWith s "#" then hexToAssColor s 0x80
      else if strStartsWith s "rgba" then
        match rgbaTry s with
        | some out => some out
        | none => hexToAssColor "#000000" 0x80
      else if strStartsWith s "rgb" then hexToAssColor "#000000" 0x80
      else hexToAssColor "#000000" 0x80

/-! ## caption_service karaoke builder

Embedding of `CaptionService._karaoke_text` (caption_service.py:573-585).
A word dict carries optional `word`, `start`, `end` entries; `start`/`end`
are the floats of the transcript (`float(w.get("start", 0))`,
`float(w.get("end", start))`).
-/

/-- One word-timestamp dict from a transcript segment. -/
structure KWord where
  word : Option String
  start : Option Rat
  endv : Option Rat
deriving Repr

/-- Python `"".join`. -/
def strJoin : List String → String
  | [] => ""
  | s :: rest => s ++ strJoin rest

/-- Loop body of `_karaoke_text` for the word at (original) index `idx`:
`none` when the trimmed word is empty (the `continue`), otherwise the
appended `{\k<dur>}<sp><word>` part. -/
def karaokeFragment (idx : Nat) (w : KWord) : Option String :=
  let word := pyStrip (w.word.getD "")
  if word = "" then none
  else
    let start := w.start.getD (mkRat 0 1)
    let endv := w.endv.getD start
    let durCs := max 1 (pyRound (Rat.mul (Rat.sub endv start) (mkRat 100 1)))
    some ("\x7b\\k" ++ toString durCs ++ "\x7d" ++ (if idx = 0 then "" else " ") ++ word)

/-- The `parts` list accumulated by the `enumerate(words)` loop of
`_karaoke_text`, starting at index `idx`. -/
def karaokeParts (idx : Nat) : List KWord → List String
  | [] => []
  | w :: ws =>
    match karaokeFragment idx w with
    | none => karaokeParts (idx + 1) ws
    | some s => s :: karaokeParts (idx + 1) ws

/-- Embeds `CaptionService._karaoke_text`. -/
def karaokeText (words : List KWord) : String := strJoin (karaokeParts 0 words)

/-- Modelled from the spec wording of the karaoke contract (spec §4.5): one
`{\k<centiseconds>}word` fragment per word, space-prefixed for every word
except the first, per-word duration `max(1, round((end-start)*100))`
centiseconds, empty-trimmed words skipped without disturbing the timing of
subsequent words. Used as the specification side of the refinement proof
for the karaoke claim. -/
def specKaraokeFragment (i : Nat) (w : KWord) : String :=
  let t := pyStrip (w.word.getD "")
  if t = "" then ""
  else
    let s := w.start.getD (mkRat 0 1)
    let e := w.endv.getD s
    "\x7b\\k" ++ toString (max 1 (pyRound (Rat.mul (Rat.sub e s) (mkRat 100 1)))) ++ "\x7d"
      ++ (if i = 0 then "" else " ") ++ t

/-- Specification-side karaoke text from index `i` on. -/
def specKaraokeTextFrom : Nat → List KWord → String
  | _, [] => ""
  | i, w :: ws => specKaraokeFragment i w ++ specKaraokeTextFrom (i + 1) ws

/-- Specification-side karaoke text of a whole word list. -/
def specKaraokeText (ws : List KWord) : String := specKaraokeTextFrom 0 ws

/-- The two-word example of the spec: `("Ek", 0, 0.4)` and `("Do", 0.4, 0.9)`. -/
def ekDoWords : List KWord :=
  [⟨some "Ek", some (mkRat 0 1), some (mkRat 2 5)⟩,
   ⟨some "Do", some (mkRat 2 5), some (mkRat 9 10)⟩]

/-! ## template_service data model

Python-JSON values (template definitions, customizations, layers) as a
mutual inductive family so that every recursion over them is structural and
kernel-reducible. `JItems`/`JFields` play the role of Python lists and
dicts (dict entries in insertion order).
-/

mutual

inductive JValue where
  | null
  | bool (b : Bool)
  | int (n : Int)
  | rat (q : Rat)
  | str (s : String)
  | list (xs : JItems)
  | obj (kvs : JFields)

inductive JItems where
  | nil
  | cons (v : JValue) (rest : JItems)

inductive JFields where
  | nil
  | cons (k : String) (v : JValue) (rest : JFields)

end

/-- Entries of a dict, as a Lean list. -/
def JFields.toList : JFields → List (String × JValue)
  | .nil => []
  | .cons k v rest => (k, v) :: JFields.toList rest

/-- Items of a list value, as a Lean list. -/
def JItems.toList : JItems → List JValue
  | .nil => []
  | .cons v rest => v :: JItems.toList rest

/-- Python `dict.get(key)` (first binding wins; template dicts have unique keys). -/
def JFields.get : JFields → String → Option JValue
  | .nil, _ => none
  | .cons k v rest, key => if k = key then some v else JFields.get rest key

/-- Python truthiness of a JSON value. -/
def jTruthy : JValue → Bool
  | .null => false
  | .bool b => b
  | .int n => n != 0
  | .rat q => q.num != 0
  | .str s => s != ""
  | .list .nil => false
  | .list _ => true
  | .obj .nil => false
  | .obj _ => true

/-- Python `a or b`. -/
def pyOr (a b : JValue) : JValue := if jTruthy a then a else b

/-- Python `==` between the scalar values used as dict keys / compared to
string literals in template_service (lists and dicts never compare equal
here; in Python they are unhashable and cannot be dict keys). -/
def jBeq : JValue → JValue → Bool
  | .null, .null => true
  | .bool a, .bool b => a == b
  | .int a, .int b => a == b
  | .rat a, .rat b => a == b
  | .str a, .str b => a == b
  | _, _ => false

/-- Python `x.get(k)` where `x` is a dict (`none` on every non-dict, which
the source never queries thanks to its `or {}` guards). -/
def jGet (v : JValue) (k : String) : Option JValue :=
  match v with
  | .obj kvs => kvs.get k
  | _ => none

/-- Python `int(value)` on the scalar values reaching `int(...)` casts in
template_service; `none` models a raised `TypeError`/`ValueError` (which
would abort the whole render - theorems restrict to inputs where this
cannot happen). -/
def pyIntOf : JValue → Option Int
  | .int n => some n
  | .rat q => some (ratTrunc q)
  | .bool b => some (if b then 1 else 0)
  | _ => none

/-- Python `float(value)` on JSON scalars; `none` models a raised error. -/
def pyFloatOf : JValue → Option Rat
  | .int n => some (ratOfInt n)
  | .rat q => some q
  | .bool b => some (mkRat (if b then 1 else 0) 1)
  | .str s => pyFloat s
  | _ => none

/-- Drop the first `n` characters of a string (list-based `s[n:]`). -/
def dropStr (s : String) (n : Nat) : String := String.mk (s.toList.drop n)

/-- Substring test on character lists. -/
def charsContain (pat : List Char) : List Char → Bool
  | [] => pat.isEmpty
  | c :: rest => pat.isPrefixOf (c :: rest) || charsContain pat rest

/-- Python `pat in s` (substring test). -/
def strContains (s pat : String) : Bool := charsContain pat.toList s.toList

/-- Python `str.lower()`. -/
def strToLower (s : String) : String := String.mk (s.toList.map Char.toLower)

/-- Count the multiplicity of `p` in `n` (with fuel), returning the
remaining cofactor as well. -/
def countFactor (p fuel n : Nat) : Nat × Nat :=
  match fuel with
  | 0 => (0, n)
  | fuel + 1 =>
    if n % p = 0 ∧ 1 < p ∧ 0 < n then
      let (c, m) := countFactor p fuel (n / p)
      (c + 1, m)
    else (0, n)

/-- Python `str(float)` for floats whose exact value is a terminating
decimal printed in positional notation - every float reaching an f-string
in the embedded code paths our theorems evaluate is of this form (floats
always have power-of-two denominators, so the final fallback is dead for
float-valued arguments). -/
def ratPyRepr (q : Rat) : String :=
  if q.den = 1 then toString q.num ++ ".0"
  else
    let a := (countFactor 2 q.den q.den).1
    let rest2 := (countFactor 2 q.den q.den).2
    let b := (countFactor 5 rest2 rest2).1
    let rest5 := (countFactor 5 rest2 rest2).2
    if rest5 = 1 then
      let k := max a b
      let digits := padZeros (k + 1) (toString (q.num.natAbs * 10 ^ k / q.den))
      let n := digits.length
      (if q.num < 0 then "-" else "") ++ String.mk (digits.toList.take (n - k)) ++ "."
        ++ String.mk (digits.toList.drop (n - k))
    else toString q.num ++ "/" ++ toString q.den

/-- Python `str(value)` for the scalar values interpolated into the ffmpeg
f-strings (template colors and numbers). -/
def pyStr : JValue → String
  | .str s => s
  | .int n => toString n
  | .rat q => ratPyRepr q
  | .bool b => if b then "True" else "False"
  | .null => "None"
  | .list _ => "<list>"
  | .obj _ => "<dict>"

/-! ## template_service token resolution

Embeds the `resolve_token` / `resolve_obj` closures of
`TemplateService._render_video` (template_service.py:220-238).
-/

/-- Context captured by the `resolve_token` closure: the resolved
`duration_seconds`, the selected `theme` dict, the job's customizations and
the template definition. -/
structure RVCtx where
  durationSeconds : Int
  theme : JValue
  customizations : JFields
  definition : JValue

/-- Embeds `resolve_token` (template_service.py:220-231). -/
def resolveToken (c : RVCtx) (v : JValue) : JValue :=
  match v with
  | .str s =>
    if s = "$duration" then .int c.durationSeconds
    else if strStartsWith s "$theme.colors." then
      let key := dropStr s 14
      let colors := pyOr ((jGet c.theme "colors").getD .null) (.obj .nil)
      (jGet colors key).getD (.str "#000000")
    else if strStartsWith s "$placeholder." then
      let key := dropStr s 13
      let cv := (c.customizations.get key).getD .null
      let phs := pyOr ((jGet c.definition "placeholders").getD .null) (.obj .nil)
      let ph := pyOr ((jGet phs key).getD .null) (.obj .nil)
      pyOr cv ((jGet ph "default").getD .null)
    else .str s
  | v => v

mutual

/-- Embeds `resolve_obj` (template_service.py:233-238). -/
def resolveObj (c : RVCtx) : JValue → JValue
  | .obj kvs => .obj (resolveObjFields c kvs)
  | .list xs => .list (resolveObjItems c xs)
  | .null => resolveToken c .null
  | .bool b => resolveToken c (.bool b)
  | .int n => resolveToken c (.int n)
  | .rat q => resolveToken c (.rat q)
  | .str s => resolveToken c (.str s)

/-- Dict branch of `resolve_obj`. -/
def resolveObjFields (c : RVCtx) : JFields → JFields
  | .nil => .nil
  | .cons k v rest => .cons k (resolveObj c v) (resolveObjFields c rest)

/-- List branch of `resolve_obj`. -/
def resolveObjItems (c : RVCtx) : JItems → JItems
  | .nil => .nil
  | .cons v rest => .cons (resolveObj c v) (resolveObjItems c rest)

end

/-! ## Spec-side token resolver (for the claim comparing spec and code) -/

/-- Modelled from the spec: the `TemplateError` taxonomy of §4.1/§7; only
`MissingRequiredField` matters for token resolution. No such error type
exists anywhere in the source. -/
inductive TemplateError where
  | missingRequiredField
deriving DecidableEq, Repr

/-- Modelled from the spec: the Token Resolver contract of §4.1 including
its failure clause - `$placeholder.<id>` falls back customization value →
placeholder default → null, except that a `required` placeholder with
neither a truthy customization value nor a declared default fails with
`TemplateError::MissingRequiredField`; every other token resolves totally. -/
def specResolveToken (c : RVCtx) (v : JValue) : Except TemplateError JValue :=
  match v with
  | .str s =>
    if s = "$duration" then .ok (.int c.durationSeconds)
    else if strStartsWith s "$theme.colors." then
      let key := dropStr s 14
      let colors := pyOr ((jGet c.theme "colors").getD .null) (.obj .nil)
      .ok ((jGet colors key).getD (.str "#000000"))
    else if strStartsWith s "$placeholder." then
      let key := dropStr s 13
      let cv := (c.customizations.get key).getD .null
      let phs := pyOr ((jGet c.definition "placeholders").getD .null) (.obj .nil)
      let ph := pyOr ((jGet phs key).getD .null) (.obj .nil)
      if jTruthy cv then .ok cv
      else
        match jGet ph "default" with
        | some d => .ok d
        | none =>
          if jTruthy ((jGet ph "required").getD .null) then .error .missingRequiredField
          else .ok .null
    else .ok (.str s)
  | v => .ok v

/-! ## template_service layer sorting

Embeds `sorted([l for l in layers if isinstance(l, dict)], key=lambda l:
int(l.get("z") or 0))` (template_service.py:304-307). Python's `sorted` is
stable; insertion sort below inserts each element in front of the sorted
remainder of the *later* elements, before the first strictly-greater key,
which is the same stable order.
-/

/-- Sort key of a layer: `int(l.get("z") or 0)` (with `int()` failures
absorbed to 0; see `zOk`). -/
def zKey (l : JValue) : Int :=
  (pyIntOf (pyOr ((jGet l "z").getD .null) (.int 0))).getD 0

/-- The layer's `z` is absent or of a type Python's `int()` accepts, so the
embedded `zKey` agrees with `int(l.get("z") or 0)`. -/
def zOk (l : JValue) : Prop :=
  (pyIntOf (pyOr ((jGet l "z").getD .null) (.int 0))).isSome

/-- Predicate for `isinstance(layer, dict)`. -/
def isObj : JValue → Bool
  | .obj _ => true
  | _ => false

/-- Insert a layer before the first element with a strictly greater key. -/
def insertByZ (x : JValue) : List JValue → List JValue
  | [] => [x]
  | y :: ys => if zKey y < zKey x then y :: insertByZ x ys else x :: y :: ys

/-- Stable sort of layers by ascending `z`. -/
def sortLayersByZ : List JValue → List JValue
  | [] => []
  | l :: ls => insertByZ l (sortLayersByZ ls)

/-! ## template_service filter-graph compiler

Embeds the pure compilation part of `TemplateService._render_video`
(template_service.py:168-430): ffmpeg input construction, the z-ordered
overlay/drawtext chain and the final `-filter_complex` lines. A result of
`.error` models an exception raised during compilation (caught by
`render_template`, which then marks the job failed).
-/

/-- Lookup in a `str → str` Python dict (asset paths). -/
def assocGetStr (m : List (String × String)) (k : String) : Option String :=
  match m with
  | [] => none
  | (k', v) :: rest => if k' = k then some v else assocGetStr rest k

/-- Lookup in `input_index_by_layer_id` (keys are the scalar values Python
would accept as dict keys). -/
def jmapGet (m : List (JValue × Nat)) (k : JValue) : Option Nat :=
  match m with
  | [] => none
  | (k', v) :: rest => if jBeq k' k then some v else jmapGet rest k

/-- Assignment into `input_index_by_layer_id` (overwrite keeps insertion
order and dict length, as in Python). -/
def jmapSet (m : List (JValue × Nat)) (k : JValue) (v : Nat) : List (JValue × Nat) :=
  match m with
  | [] => [(k, v)]
  | (k', v') :: rest => if jBeq k' k then (k, v) :: rest else (k', v') :: jmapSet rest k v

/-- Python `int(...)` lifted into the render's exception monad. -/
def pyIntE (v : JValue) (what : String) : Except String Int :=
  match pyIntOf v with
  | some n => .ok n
  | none => .error ("int() failed on " ++ what)

/-- Python `float(...)` lifted into the render's exception monad. -/
def pyFloatE (v : JValue) (what : String) : Except String Rat :=
  match pyFloatOf v with
  | some q => .ok q
  | none => .error ("float() failed on " ++ what)

/-- Embeds the `between_expr` closure (template_service.py:312-317). -/
def betweenExpr (c : RVCtx) (startv endv : JValue) : Except String String := do
  let s ← pyFloatE (pyOr (resolveToken c startv) (.int 0)) "between start"
  let e ← pyFloatE (pyOr (resolveToken c endv) (.int c.durationSeconds)) "between end"
  let e := if e = ratOfInt c.durationSeconds ∧ jBeq endv (.str "$duration") = true then
      ratOfInt c.durationSeconds
    else e
  pure ("between(t\\," ++ ratPyRepr s ++ "\\," ++ ratPyRepr e ++ ")")

/-- Loop body of the `for layer in layers` ffmpeg-inputs loop
(template_service.py:258-287): accumulates the ffmpeg input arguments and
`input_index_by_layer_id`; a layer whose source has no materialized local
path is skipped (`continue`) and registers no input. -/
def inputStep (c : RVCtx) (tmpDir : String) (assetPaths : List (String × String))
    (st : List String × List (JValue × Nat)) (layer : JValue) :
    List String × List (JValue × Nat) :=
  if isObj layer = false then st
  else
    let ltype := (jGet layer "type").getD .null
    if !(jBeq ltype (.str "video") || jBeq ltype (.str "image")) then st
    else
      match resolveToken c ((jGet layer "source").getD .null) with
      | .str srcs =>
        if srcs = "" then st
        else
          let placeholderKey : String :=
            match (jGet layer "source").getD .null with
            | .str rs => if strStartsWith rs "$placeholder." then dropStr rs 13 else ""
            | _ => ""
          let localPath : Option String :=
            match assocGetStr assetPaths placeholderKey with
            | some p => if p = "" then none else some p
            | none => none
          let localPath : Option String :=
            match localPath with
            | some p => some p
            | none => if strStartsWith srcs tmpDir then some srcs else none
          match localPath with
          | none => st
          | some lp =>
            let args := if jBeq ltype (.str "video") then ["-stream_loop", "-1", "-i", lp]
              else ["-loop", "1", "-i", lp]
            let key := pyOr ((jGet layer "id").getD .null)
              (.str ("layer_" ++ toString (st.2.length + 1)))
            (st.1 ++ args, jmapSet st.2 key (1 + st.2.length))
      | _ => st

/-- The mutable state of the overlay loop: `current_label`, `filter_lines`,
`draw_index`, `overlay_index`. -/
structure ChainState where
  currentLabel : String
  filterLines : List String
  drawIndex : Nat
  overlayIndex : Nat
deriving DecidableEq, Repr

/-- Everything the overlay loop closes over. -/
structure ChainCtx where
  rctx : RVCtx
  tmpDir : String
  imap : List (JValue × Nat)
  width : Int
  height : Int

/-- Loop body of the `for layer in sorted_layers` overlay loop
(template_service.py:327-405). -/
def overlayStep (cc : ChainCtx) (st : ChainState) (layer : JValue) :
    Except String ChainState := do
  let ltype := (jGet layer "type").getD .null
  if jBeq ltype (.str "video") || jBeq ltype (.str "image") then
    match jmapGet cc.imap ((jGet layer "id").getD .null) with
    | none => pure st
    | some inputIdx => do
      let transform := resolveObj cc.rctx (pyOr ((jGet layer "transform").getD .null) (.obj .nil))
      let fit := pyOr ((jGet transform "fit").getD .null) (.str "cover")
      let opacity ← pyFloatE (pyOr ((jGet transform "opacity").getD .null) (.rat (mkRat 1 1)))
        "opacity"
      let ovLabel := "[ov" ++ toString st.overlayIndex ++ "]"
      let scaleLine ←
        if jBeq ltype (.str "video") then
          if jBeq fit (.str "contain") then
            pure ("[" ++ toString inputIdx ++ ":v]scale=w=" ++ toString cc.width ++ ":h="
              ++ toString cc.height ++ ":force_original_aspect_ratio=decrease,pad=w="
              ++ toString cc.width ++ ":h=" ++ toString cc.height
              ++ ":x=(ow-iw)/2:y=(oh-ih)/2:color=0x00000000,setsar=1,format=rgba" ++ ovLabel)
          else
            pure ("[" ++ toString inputIdx ++ ":v]scale=w=" ++ toString cc.width ++ ":h="
              ++ toString cc.height ++ ":force_original_aspect_ratio=increase,crop=w="
              ++ toString cc.width ++ ":h=" ++ toString cc.height ++ ",setsar=1,format=rgba"
              ++ ovLabel)
        else do
          let w ← pyIntE (pyOr ((jGet transform "w").getD .null) (.int 0)) "w"
          let h ← pyIntE (pyOr ((jGet transform "h").getD .null) (.int 0)) "h"
          if 0 < w ∧ 0 < h then
            pure ("[" ++ toString inputIdx ++ ":v]scale=" ++ toString w ++ ":" ++ toString h
              ++ ":force_original_aspect_ratio=decrease,format=rgba" ++ ovLabel)
          else pure ("[" ++ toString inputIdx ++ ":v]format=rgba" ++ ovLabel)
      let x ← pyIntE (pyOr ((jGet transform "x").getD .null) (.int 0)) "x"
      let y ← pyIntE (pyOr ((jGet transform "y").getD .null) (.int 0)) "y"
      let enable ← betweenExpr cc.rctx ((jGet layer "start").getD .null)
        ((jGet layer "end").getD .null)
      let outLabel := "[v" ++ toString st.overlayIndex ++ "]"
      let mixAndIn :=
        if Rat.blt opacity (mkRat 1 1) then
          (["[ov" ++ toString st.overlayIndex ++ "]colorchannelmixer=aa=" ++ ratPyRepr opacity
            ++ "[ova" ++ toString st.overlayIndex ++ "]"],
            "[ova" ++ toString st.overlayIndex ++ "]")
        else (([] : List String), ovLabel)
      let overlayLine := st.currentLabel ++ mixAndIn.2 ++ "overlay=x=" ++ toString x ++ ":y="
        ++ toString y ++ ":enable=\x27" ++ enable ++ "\x27" ++ outLabel
      pure { st with
        currentLabel := outLabel
        filterLines := st.filterLines ++ [scaleLine] ++ mixAndIn.1 ++ [overlayLine]
        overlayIndex := st.overlayIndex + 1 }
  else if jBeq ltype (.str "text") then
    match resolveToken cc.rctx ((jGet layer "text").getD .null) with
    | .str t =>
      if pyStrip t = "" then pure st
      else do
        let style := resolveObj cc.rctx (pyOr ((jGet layer "style").getD .null) (.obj .nil))
        let transform := resolveObj cc.rctx
          (pyOr ((jGet layer "transform").getD .null) (.obj .nil))
        let fontSize ← pyIntE (pyOr ((jGet style "fontSize").getD .null) (.int 48)) "fontSize"
        let color := pyOr ((jGet style "color").getD .null) (.str "white")
        let fontFamily := pyOr ((jGet style "fontFamily").getD .null) (.str "Inter")
        let bg := pyOr ((jGet style "background").getD .null) .null
        let box : Int := if isObj bg && jTruthy ((jGet bg "color").getD .null) then 1 else 0
        let boxcolor := pyOr (if isObj bg then (jGet bg "color").getD .null else .null)
          (.str "black@0.0")
        let boxborderw ←
          if isObj bg then do
            let pv ← pyFloatE (pyOr ((jGet bg "paddingX").getD .null) (.int 0)) "paddingX"
            pure (ratTrunc (Rat.div pv (mkRat 2 1)))
          else pure (0 : Int)
        let x ← pyIntE (pyOr ((jGet transform "x").getD .null) (.int 0)) "x"
        let y ← pyIntE (pyOr ((jGet transform "y").getD .null) (.int 0)) "y"
        let enable ← betweenExpr cc.rctx ((jGet layer "start").getD .null)
          ((jGet layer "end").getD .null)
        let drawIndex := st.drawIndex + 1
        let textfile := cc.tmpDir ++ "/text_" ++ toString drawIndex ++ ".txt"
        let draw := "drawtext=textfile=\x27" ++ textfile ++ "\x27:font=\x27" ++ pyStr fontFamily
          ++ "\x27:fontsize=" ++ toString fontSize ++ ":fontcolor=" ++ pyStr color
          ++ ":x=" ++ toString x ++ ":y=" ++ toString y ++ ":box=" ++ toString box
          ++ ":boxcolor=" ++ pyStr boxcolor ++ ":boxborderw=" ++ toString boxborderw
          ++ ":enable=\x27" ++ enable ++ "\x27"
        let outLabel := "[t" ++ toString drawIndex ++ "]"
        pure { st with
          currentLabel := outLabel
          filterLines := st.filterLines ++ [st.currentLabel ++ draw ++ outLabel]
          drawIndex := drawIndex }
    | _ => pure st
  else pure st

/-- Fold of `overlayStep` over the z-sorted layers. -/
def chainFold (cc : ChainCtx) : List JValue → ChainState → Except String ChainState
  | [], st => .ok st
  | l :: ls, st =>
    match overlayStep cc st l with
    | .error e => .error e
    | .ok st' => chainFold cc ls st'

/-- Background color scan (template_service.py:245-250): the first `solid`
layer's resolved style color, else `"black"`. -/
def bgColorOf (c : RVCtx) : List JValue → JValue
  | [] => .str "black"
  | l :: ls =>
    if isObj l && jBeq ((jGet l "type").getD .null) (.str "solid") then
      pyOr ((jGet (resolveObj c (pyOr ((jGet l "style").getD .null) (.obj .nil))) "color").getD
        .null) (.str "black")
    else bgColorOf c ls

/-- First theme id of the definition's `themes` dict, if it is a nonempty
dict (`resolve_theme_id`, template_service.py:204-211). -/
def defaultThemeId : JValue → Option String
  | .obj (.cons k _ _) => some k
  | _ => none

/-- The `Template` database row fields `_render_video` reads. -/
structure TemplateRec where
  templateData : Option JValue
  durationSeconds : Int
  fps : Option Int
  width : Option Int
  height : Option Int

/-- `Option Int` database column as the Python value it holds. -/
def optIntJ : Option Int → JValue
  | some n => .int n
  | none => .null

/-- Pure compilation output of `_render_video`: the ffmpeg input arguments
(after the executable name and before `-filter_complex`) and the filter
chain. -/
structure CompileResult where
  cmdInputs : List String
  filterLines : List String
  outputLabel : String
deriving DecidableEq, Repr

/-- Embeds the compilation part of `TemplateService._render_video`
(template_service.py:194-408): token context construction, background
color, ffmpeg inputs for materialized video/image layers, and the stable
z-ordered overlay/drawtext chain. -/
def renderVideoCompile (template : TemplateRec) (customizations : JFields)
    (assetPaths : List (String × String)) (tmpDir : String) :
    Except String CompileResult := do
  let definition := pyOr (template.templateData.getD .null) (.obj .nil)
  let durationSeconds : Int :=
    match customizations.get "duration_seconds" with
    | some (.int n) => if 0 < n then n else template.durationSeconds
    | _ => template.durationSeconds
  let fps ← pyIntE (pyOr ((jGet definition "fps").getD .null)
    (pyOr (optIntJ template.fps) (.int 30))) "fps"
  let width ← pyIntE (pyOr ((jGet definition "width").getD .null)
    (pyOr (optIntJ template.width) (.int 1080))) "width"
  let height ← pyIntE (pyOr ((jGet definition "height").getD .null)
    (pyOr (optIntJ template.height) (.int 1920))) "height"
  let themes := pyOr ((jGet definition "themes").getD .null) (.obj .nil)
  let themeId : Option String :=
    match customizations.get "theme_id" with
    | some (.str s) => if s ≠ "" then some s else defaultThemeId themes
    | _ => defaultThemeId themes
  let theme := pyOr (match themeId with
    | some tid => (jGet themes tid).getD .null
    | none => .null) (.obj .nil)
  let ctx : RVCtx := ⟨durationSeconds, theme, customizations, definition⟩
  let layers : List JValue :=
    match pyOr ((jGet definition "layers").getD .null) (.list .nil) with
    | .list xs => xs.toList
    | _ => []
  let bgColor := bgColorOf ctx layers
  let inputsAndMap := layers.foldl (inputStep ctx tmpDir assetPaths) ([], [])
  let lavfi := "color=c=" ++ pyStr bgColor ++ ":s=" ++ toString width ++ "x" ++ toString height
    ++ ":r=" ++ toString fps ++ ":d=" ++ toString durationSeconds
  let cc : ChainCtx := ⟨ctx, tmpDir, inputsAndMap.2, width, height⟩
  let st0 : ChainState := ⟨"[base]", ["[0:v]format=rgba[base]"], 0, 0⟩
  let stF ← chainFold cc (sortLayersByZ (layers.filter isObj)) st0
  pure ⟨["-y", "-f", "lavfi", "-i", lavfi] ++ inputsAndMap.1, stF.filterLines, stF.currentLabel⟩

/-! ## template_service asset preparation -/

/-- An HTTP response as `_prepare_assets` consumes it (`status_code`,
`content-type` header with `""` for absent, body bytes). -/
structure HttpResponse where
  status : Nat
  contentType : String
  body : String

/-- File extension logic of `_prepare_assets` (template_service.py:146-159). -/
def extFromUrl (url : String) (contentType : String) : String :=
  let urlPath := (splitOnChar '?' url).headD url
  let ext0 := if strContains urlPath "." then (splitOnChar '.' urlPath).getLastD "bin" else "bin"
  let ext := strToLower ext0
  if ext = "bin" then
    let ct := strToLower contentType
    if strContains ct "image/png" then "png"
    else if strContains ct "image/jpeg" || strContains ct "image/jpg" then "jpg"
    else if strContains ct "video/mp4" then "mp4"
    else if strContains ct "video/quicktime" then "mov"
    else "bin"
  else ext

/-- Embeds `TemplateService._prepare_assets` (template_service.py:126-166):
every customization value that is a string starting with `http` is fetched;
`response.raise_for_status()` raises on any status ≥ 400, aborting the
whole preparation (modelled by `.error`); successful downloads are recorded
in `asset_paths`. -/
def prepareAssets (fetch : String → HttpResponse) (tmpDir : String) :
    JFields → Except String (List (String × String))
  | .nil => .ok []
  | .cons fieldId v rest =>
    match v with
    | .str url =>
      if strStartsWith url "http" then
        let resp := fetch url
        if 400 ≤ resp.status then
          .error ("HTTP error " ++ toString resp.status ++ " for url " ++ url)
        else
          let path := tmpDir ++ "/" ++ fieldId ++ "." ++ extFromUrl url resp.contentType
          match prepareAssets fetch tmpDir rest with
          | .error e => .error e
          | .ok ps => .ok ((fieldId, path) :: ps)
      else prepareAssets fetch tmpDir rest
    | _ => prepareAssets fetch tmpDir rest

/-! ## render job lifecycle

Embeds the observable (committed) job states of the `use_template` and
`render_template` endpoints (templates.py:321-444) and of the background
`TemplateService.render_template` (template_service.py:29-124).
-/

/-- The `user_template.status` strings. -/
inductive JStatus where
  | draft | rendering | completed | failed
deriving DecidableEq, Repr

/-- The fields of a `UserTemplate` row the render lifecycle touches. -/
structure JobState where
  status : JStatus
  outputUrl : Option String
  thumbnailUrl : Option String
  renderProgress : Int
  errorMessage : Option String
deriving DecidableEq, Repr

/-- The job row created by `use_template` (templates.py:360-367):
`status="draft"`, render columns at their defaults. -/
def initialJob : JobState := ⟨.draft, none, none, 0, none⟩

/-- Errors of the `render_template` endpoint for an existing job. -/
inductive StartError where
  | insufficientCredits
deriving DecidableEq, Repr

/-- Embeds the `render_template` endpoint (templates.py:387-444) acting on
an existing job of the caller: the 402 guard on `credits_remaining`, then
the unconditional `user_template.status = "rendering"` commit - there is no
check of the current status. -/
def startRender (credits : Int) (s : JobState) : Except StartError JobState :=
  if credits ≤ 0 then .error .insufficientCredits
  else .ok { s with status := .rendering }

/-- External collaborators of one background render: whether the base
template row exists, the HTTP fetcher, the encoder outcome, and the storage
URLs that uploads return. -/
structure RenderEnv where
  templateFound : Bool
  fetch : String → HttpResponse
  encodeOk : Bool
  videoUrl : String
  thumbUrl : String

/-- The successive committed (observable) states of
`TemplateService.render_template` run on a job in state `s`: one list entry
per `db.commit()`. The `except` branch (template_service.py:120-124) sets
`status="failed"` and `error_message` but touches nothing else. -/
def renderServiceStates (env : RenderEnv) (template : TemplateRec)
    (customizations : JFields) (tmpDir : String) (s : JobState) : List JobState :=
  if !env.templateFound then
    [{ s with status := .failed, errorMessage := some "Base template not found" }]
  else
    let s10 := { s with renderProgress := 10 }
    match prepareAssets env.fetch tmpDir customizations with
    | .error e => [s10, { s10 with status := .failed, errorMessage := some e }]
    | .ok assetPaths =>
      let s40 := { s10 with renderProgress := 40 }
      match renderVideoCompile template customizations assetPaths tmpDir with
      | .error e => [s10, s40, { s40 with status := .failed, errorMessage := some e }]
      | .ok _ =>
        if !env.encodeOk then
          [s10, s40, { s40 with status := .failed, errorMessage := some "FFmpeg error" }]
        else
          let s80 := { s40 with renderProgress := 80 }
          let sDone : JobState :=
            ⟨.completed, some env.videoUrl, some env.thumbUrl, 100, s80.errorMessage⟩
          [s10, s40, s80, sDone]

/-- Job states observable through the endpoints and the background service
as the code implements them: creation in `draft`, `render_template` starts
(unguarded on status), and any committed state of a background render of a
previously started job. -/
inductive Reachable : JobState → Prop where
  | created : Reachable initialJob
  | started (s s' : JobState) (credits : Int) :
      Reachable s → startRender credits s = .ok s' → Reachable s'
  | serviced (s s' : JobState) (env : RenderEnv) (template : TemplateRec)
      (customizations : JFields) (tmpDir : String) :
      Reachable s → s' ∈ renderServiceStates env template customizations tmpDir s →
      Reachable s'

/-- Job states reachable when the spec's start guard is respected: a render
is started only from `draft`, and the background service runs only on the
freshly started `rendering` job. -/
inductive GuardedReachable : JobState → Prop where
  | created : GuardedReachable initialJob
  | started (s s' : JobState) (credits : Int) :
      GuardedReachable s → s.status = .draft → startRender credits s = .ok s' →
      GuardedReachable s'
  | serviced (s s' : JobState) (env : RenderEnv) (template : TemplateRec)
      (customizations : JFields) (tmpDir : String) :
      GuardedReachable s → s.status = .rendering →
      s' ∈ renderServiceStates env template customizations tmpDir s →
      GuardedReachable s'

/-! ## Concrete fixtures used by the theorems -/

/-- URL of the first image asset. -/
def urlA : String := "http://cdn.example/a.png"

/-- URL of the second image asset. -/
def urlB : String := "http://cdn.example/b.png"

/-- Image layer declared first, with `z = 2`. -/
def layerA : JValue :=
  .obj (.cons "id" (.str "imgA") (.cons "type" (.str "image")
    (.cons "z" (.int 2) (.cons "source" (.str "$placeholder.img1") .nil))))

/-- Image layer declared second, with `z = 1`. -/
def layerB : JValue :=
  .obj (.cons "id" (.str "imgB") (.cons "type" (.str "image")
    (.cons "z" (.int 1) (.cons "source" (.str "$placeholder.img2") .nil))))

/-- Template definition with the two image layers above. -/
def twoLayerDef : JValue :=
  .obj (.cons "layers" (.list (.cons layerA (.cons layerB .nil))) .nil)

/-- Template row carrying `twoLayerDef`, 5 seconds long. -/
def twoLayerTemplate : TemplateRec := ⟨some twoLayerDef, 5, none, none, none⟩

/-- Customizations materializing both image placeholders from URLs. -/
def custBoth : JFields := .cons "img1" (.str urlA) (.cons "img2" (.str urlB) .nil)

/-- Customizations where the second placeholder value is not a URL, so it is
never downloaded and the second layer has no materialized input. -/
def custOneLocal : JFields := .cons "img1" (.str urlA) (.cons "img2" (.str "local-file") .nil)

/-- HTTP oracle where every URL succeeds. -/
def fetchOk : String → HttpResponse := fun _ => ⟨200, "image/png", "data"⟩

/-- HTTP oracle where `urlB` returns 404 and everything else succeeds. -/
def fetch404 : String → HttpResponse := fun url =>
  if url = urlB then ⟨404, "", ""⟩ else ⟨200, "image/png", "data"⟩

/-- Render environment in which everything succeeds. -/
def envOk : RenderEnv := ⟨true, fetchOk, true, "http://storage/out.mp4", "http://storage/thumb.jpg"⟩

/-- Render environment in which `urlB` 404s. -/
def env404 : RenderEnv := ⟨true, fetch404, true, "http://storage/out.mp4", "http://storage/thumb.jpg"⟩

/-- Template row with no definition (compiles to a bare background). -/
def trivialTemplate : TemplateRec := ⟨none, 5, none, none, none⟩

/-- A job freshly transitioned to `rendering` by the render endpoint. -/
def startedJob : JobState := ⟨.rendering, none, none, 0, none⟩

/-- A job that completed a render and carries its output URL. -/
def completedJob : JobState :=
  ⟨.completed, some "http://storage/out.mp4", some "http://storage/thumb.jpg", 100, none⟩

/-- Template definition declaring one required placeholder `name` with no
default value. -/
def reqPlaceholderDef : JValue :=
  .obj (.cons "placeholders"
    (.obj (.cons "name" (.obj (.cons "required" (.bool true) .nil)) .nil)) .nil)

/-- Resolution context with empty customizations over `reqPlaceholderDef`. -/
def reqCtx : RVCtx := ⟨5, .obj .nil, .nil, reqPlaceholderDef⟩

/-- A chain context whose input map is empty (no layer was materialized). -/
def ccEmpty : ChainCtx := ⟨⟨5, .obj .nil, .nil, .obj .nil⟩, "/tmp/job", [], 1080, 1920⟩

/-- The initial chain state (`[base]` label, base format line). -/
def st0 : ChainState := ⟨"[base]", ["[0:v]format=rgba[base]"], 0, 0⟩

/-! ## Bridging lemmas between the core `Rat` operations and `ℚ` -/

/-- Core subtraction is the field subtraction. -/
theorem ratSub_eq (a b : Rat) : Rat.sub a b = a - b := rfl

/-- Core multiplication is the field multiplication. -/
theorem ratMul_eq (a b : Rat) : Rat.mul a b = a * b := rfl

/-- Core `blt` decides `<`. -/
theorem ratBlt_iff (a b : Rat) : Rat.blt a b = true ↔ a < b := Iff.rfl

/-- `mkRat n 1` is the integer cast. -/
theorem mkRat_int (n : Int) : mkRat n 1 = (n : ℚ) := by
  rw [Rat.mkRat_eq_divInt, Nat.cast_one, ← Rat.intCast_eq_divInt]

/-- `pyMin` returns its second argument when that one is not larger. -/
theorem pyMin_eq_right (a b : Rat) (h : b ≤ a) : pyMin a b = b := by
  unfold pyMin
  by_cases hb : Rat.blt b a
  · rw [if_pos hb]
  · rw [if_neg hb]
    have hab : a ≤ b := le_of_not_lt (fun hlt => hb ((ratBlt_iff b a).mpr hlt))
    exact le_antisymm hab h

/-- `pyMax` returns its second argument when that one is not smaller. -/
theorem pyMax_eq_right (a b : Rat) (h : a ≤ b) : pyMax a b = b := by
  unfold pyMax
  by_cases hb : Rat.blt a b
  · rw [if_pos hb]
  · rw [if_neg hb]
    have hba : b ≤ a := le_of_not_lt (fun hlt => hb ((ratBlt_iff a b).mpr hlt))
    exact le_antisymm h hba

/-- Truncation toward zero agrees with the floor on nonnegative rationals. -/
theorem ratTrunc_eq_floor_of_nonneg (q : Rat) (h : 0 ≤ q) : ratTrunc q = ratFloor q := by
  unfold ratTrunc ratFloor
  have hnum : 0 ≤ q.num := Rat.num_nonneg.mpr h
  have hden : (0 : Int) ≤ (q.den : Int) := Int.ofNat_nonneg _
  exact (Int.fdiv_eq_tdiv hnum hden).symm

/-- Clamping `1 - a` to `[0, 1]` is a no-op for `a ∈ [0, 1]`, so the alpha
byte of the rgba conversion is the floor (truncation) of `(1-a)*255`. -/
theorem rgbaAlphaByte_eq_floor (a : Rat) (h0 : 0 ≤ a) (h1 : a ≤ 1) :
    rgbaAlphaByte a = ratFloor (Rat.mul (Rat.sub (mkRat 1 1) a) (mkRat 255 1)) := by
  have hone : mkRat (1 : Int) 1 = (1 : ℚ) := by rw [mkRat_int]; norm_num
  have hsub : Rat.sub (mkRat 1 1) a = 1 - a := by rw [ratSub_eq, hone]
  have hle : (1 : ℚ) - a ≤ 1 := by linarith
  have hge : (0 : ℚ) ≤ 1 - a := by linarith
  have hmin : pyMin (mkRat 1 1) (Rat.sub (mkRat 1 1) a) = Rat.sub (mkRat 1 1) a := by
    apply pyMin_eq_right
    rw [hsub, hone]
    exact hle
  have hmax : pyMax (mkRat 0 1) (Rat.sub (mkRat 1 1) a) = Rat.sub (mkRat 1 1) a := by
    apply pyMax_eq_right
    rw [hsub]
    rw [show mkRat (0 : Int) 1 = (0 : ℚ) by rw [mkRat_int]; norm_num]
    exact hge
  unfold rgbaAlphaByte
  rw [hmin, hmax]
  apply ratTrunc_eq_floor_of_nonneg
  rw [ratMul_eq, hsub]
  have h255 : mkRat (255 : Int) 1 = (255 : ℚ) := by rw [mkRat_int]; norm_num
  rw [h255]
  positivity

/-! ## Claim theorems: caption formatting -/

/-- Claim C4: for a segment with `start = 1.5` and `end = 3.25` seconds, the
SRT formatter emits the timestamp line `00:00:01,500 --> 00:00:03,250`, the
VTT formatter emits `00:00:01.500 --> 00:00:03.250`, and the ASS formatter
emits start `0:00:01.50` and end `0:00:03.25`. -/
theorem c4_timestamp_formats :
    srtTimingLine (mkRat 3 2) (mkRat 13 4) = "00:00:01,500 --> 00:00:03,250" ∧
    vttTimingLine (mkRat 3 2) (mkRat 13 4) = "00:00:01.500 --> 00:00:03.250" ∧
    formatTimeAss (mkRat 3 2) = "0:00:01.50" ∧
    formatTimeAss (mkRat 13 4) = "0:00:03.25" :=
  ⟨by decide, by decide, by decide, by decide⟩

/-- Claim C7 counterexample: `_hex_to_ass_color` does not expand 3-digit hex
colors; `#abc` (length ≠ 6 after stripping `#`) is replaced by `FFFFFF`, so
the result is `&H00FFFFFF`, not the `&H00CCBBAA` the claim requires. -/
theorem c7_counterexample :
    hexToAssColor "#abc" 0 = some "&H00FFFFFF" ∧
    hexToAssColor "#abc" 0 ≠ some "&H00CCBBAA" :=
  ⟨by decide, by decide⟩

/-- Claim C7 (amended): a hex color whose `#`-stripped form does not have
exactly 6 characters is replaced by `FFFFFF` (there is no 3-digit
expansion), so `#abc` with alpha 0 yields `&H00FFFFFF`. -/
theorem c7_amended (s : String) (alpha : Int)
    (h : (lstripHash (if s = "" then "#FFFFFF" else s)).length ≠ 6) :
    hexToAssColor s alpha = some ("&H" ++ intToHex2 alpha ++ "FF" ++ "FF" ++ "FF") := by
  simp only [hexToAssColor]
  rw [if_pos h]
  rfl

/-- Claim C7 amended, witnessed at `#abc` with alpha 0. -/
theorem c7_amended_witness :
    hexToAssColor "#abc" 0 = some ("&H" ++ intToHex2 0 ++ "FF" ++ "FF" ++ "FF") :=
  c7_amended "#abc" 0 (by decide)

/-- Claim C8 counterexample: for `rgba(0,0,0,0.5)` the code computes the
alpha byte by truncation, `int((1-0.5)*255) = 127 = 0x7F`, whereas
`round((1-0.5)*255) = 128 = 0x80`; the produced back color is `&H7F000000`,
not the `&H80000000` the claimed formula would give. -/
theorem c8_counterexample :
    rgbaToAssBackColor (some "rgba(0,0,0,0.5)") = some "&H7F000000" ∧
    pyRound (Rat.mul (Rat.sub (mkRat 1 1) (mkRat 1 2)) (mkRat 255 1)) = 128 ∧
    rgbaToAssBackColor (some "rgba(0,0,0,0.5)") ≠
      some ("&H" ++ intToHex2 128 ++ "000000") :=
  ⟨by decide, by decide, by decide⟩

/-- Claim C8 (amended): the back-color conversion computes the ASS alpha
byte as `int(max(0, min(1, 1-a)) * 255)` - truncation (equivalently the
floor, since the clamped value is nonnegative) of `(1-a)*255`, not rounding
to nearest; on `rgba(0,0,0,0.5)` this yields byte `0x7F`. -/
theorem c8_amended :
    (∀ a : Rat, 0 ≤ a → a ≤ 1 →
      rgbaAlphaByte a = ratFloor (Rat.mul (Rat.sub (mkRat 1 1) a) (mkRat 255 1))) ∧
    rgbaToAssBackColor (some "rgba(0,0,0,0.5)") = some "&H7F000000" :=
  ⟨rgbaAlphaByte_eq_floor, by decide⟩

/-- Claim C8 amended, witnessed at `a = 1/2`. -/
theorem c8_amended_witness :
    rgbaAlphaByte (mkRat 1 2) =
      ratFloor (Rat.mul (Rat.sub (mkRat 1 1) (mkRat 1 2)) (mkRat 255 1)) :=
  c8_amended.1 (mkRat 1 2) (by decide) (by decide)

/-! ## Claim theorems: karaoke -/

/-- The accumulated karaoke parts joined from any starting index agree with
the specification-side description. -/
theorem karaokeParts_eq_spec (ws : List KWord) : ∀ n : Nat,
    strJoin (karaokeParts n ws) = specKaraokeTextFrom n ws := by
  induction ws with
  | nil => intro n; rfl
  | cons w rest ih =>
    intro n
    by_cases h : pyStrip (w.word.getD "") = ""
    · simp [karaokeParts, karaokeFragment, specKaraokeTextFrom, specKaraokeFragment, h, ih]
    · simp [karaokeParts, karaokeFragment, specKaraokeTextFrom, specKaraokeFragment, h,
        strJoin, ih]

/-- Claim C3: for every word list, the karaoke builder emits exactly the
spec-described tag sequence - one `{\k<cs>}word` fragment per surviving
word, space-prefixed for all (original) indices after the first, duration
`max(1, round((end-start)*100))` centiseconds, empty-trimmed words skipped
without disturbing the timing of subsequent words - and on the words
`("Ek",0,0.4), ("Do",0.4,0.9)` it produces exactly the ASS text
`{\k40}Ek{\k50} Do`. -/
theorem c3_karaoke :
    (∀ ws : List KWord, karaokeText ws = specKaraokeText ws) ∧
    karaokeText ekDoWords = "\x7b\\k40\x7dEk\x7b\\k50\x7d Do" :=
  ⟨fun ws => karaokeParts_eq_spec ws 0, by decide⟩

/-- Claim C10: the leading space of a karaoke fragment is decided by the
word's position in the original list, not among the emitted words: a word
list whose head trims to empty contributes nothing, rendering continues at
index 1, and every surviving word at a positive index is emitted as
`{\k<dur>} word` (space between the tag and the word); in particular an
empty first word followed by `("Hi",0.4,0.9)` yields `{\k50} Hi`. -/
theorem c10_karaoke_space :
    (∀ (w₀ : KWord) (rest : List KWord), pyStrip (w₀.word.getD "") = "" →
      karaokeText (w₀ :: rest) = strJoin (karaokeParts 1 rest)) ∧
    (∀ (i : Nat) (w : KWord), 0 < i → pyStrip (w.word.getD "") ≠ "" →
      karaokeFragment i w =
        some ("\x7b\\k" ++ toString (max 1 (pyRound (Rat.mul
            (Rat.sub (w.endv.getD (w.start.getD (mkRat 0 1))) (w.start.getD (mkRat 0 1)))
            (mkRat 100 1)))) ++ "\x7d" ++ " " ++ pyStrip (w.word.getD ""))) ∧
    karaokeText [⟨some "", some (mkRat 0 1), some (mkRat 2 5)⟩,
      ⟨some "Hi", some (mkRat 2 5), some (mkRat 9 10)⟩] = "\x7b\\k50\x7d Hi" := by
  refine ⟨?_, ?_, by decide⟩
  · intro w₀ rest h
    simp [karaokeText, karaokeParts, karaokeFragment, h]
  · intro i w hi h
    have hne : i ≠ 0 := Nat.pos_iff_ne_zero.mp hi
    simp [karaokeFragment, h, hne, String.append_assoc]

/-- Claim C10, witnessed at a blank first word and `("Hi",0.4,0.9)`. -/
theorem c10_witness :
    karaokeText [⟨some " ", some (mkRat 0 1), some (mkRat 2 5)⟩,
        ⟨some "Hi", some (mkRat 2 5), some (mkRat 9 10)⟩] =
      strJoin (karaokeParts 1 [⟨some "Hi", some (mkRat 2 5), some (mkRat 9 10)⟩]) ∧
    karaokeFragment 1 ⟨some "Hi", some (mkRat 2 5), some (mkRat 9 10)⟩ =
      some ("\x7b\\k" ++ toString (max 1 (pyRound (Rat.mul
          (Rat.sub ((mkRat 9 10 : Rat)) (mkRat 2 5)) (mkRat 100 1)))) ++ "\x7d" ++ " "
        ++ pyStrip "Hi") :=
  ⟨c10_karaoke_space.1 ⟨some " ", some (mkRat 0 1), some (mkRat 2 5)⟩ _ (by decide),
   c10_karaoke_space.2.1 1 ⟨some "Hi", some (mkRat 2 5), some (mkRat 9 10)⟩ (by decide)
     (by decide)⟩

/-! ## Claim theorems: token resolution -/

/-- A falsy left operand makes Python `or` return its right operand. -/
theorem pyOr_of_falsy (a b : JValue) (h : jTruthy a = false) : pyOr a b = b := by
  simp [pyOr, h]

/-- Claim C6 counterexample: resolving `$placeholder.name` for a required
placeholder with no customization value and no default does not fail -
`resolve_token` is total and returns Python `None` - whereas the
spec-modelled resolver produces `TemplateError::MissingRequiredField` (an
error that exists nowhere in the source). -/
theorem c6_counterexample :
    resolveToken reqCtx (.str "$placeholder.name") = JValue.null ∧
    specResolveToken reqCtx (.str "$placeholder.name") =
      .error TemplateError.missingRequiredField :=
  ⟨rfl, rfl⟩

/-- Claim C6 (amended): token resolution is total and never raises for any
token; a `$placeholder.<id>` token whose customization value is falsy and
whose placeholder declaration carries no `default` resolves to `None`
(null) - it does not fail, required or not. -/
theorem c6_amended :
    (∀ (c : RVCtx) (s : String),
      s ≠ "$duration" →
      strStartsWith s "$theme.colors." = false →
      strStartsWith s "$placeholder." = true →
      jTruthy ((c.customizations.get (dropStr s 13)).getD .null) = false →
      jGet (pyOr ((jGet (pyOr ((jGet c.definition "placeholders").getD .null) (.obj .nil))
        (dropStr s 13)).getD .null) (.obj .nil)) "default" = none →
      resolveToken c (.str s) = JValue.null) ∧
    resolveToken reqCtx (.str "$placeholder.name") = JValue.null := by
  constructor
  · intro c s hdur hth hph hcv hdef
    simp only [resolveToken]
    rw [if_neg hdur, if_neg (by simp [hth]), if_pos (by simp [hph])]
    rw [pyOr_of_falsy _ _ hcv, hdef]
    rfl
  · rfl

/-- Claim C6 amended, witnessed at `reqCtx` and `$placeholder.name`. -/
theorem c6_amended_witness :
    resolveToken reqCtx (.str "$placeholder.name") = JValue.null :=
  c6_amended.1 reqCtx "$placeholder.name" (by decide) (by decide) (by decide) (by decide) rfl

/-! ## Claim theorems: render start guard -/

/-- Claim C2 counterexample: the render endpoint started on a job whose
status is `completed` (not `draft`) raises no already-running error and
still transitions the job to `rendering`. -/
theorem c2_counterexample :
    startRender 1 completedJob = .ok ⟨.rendering, some "http://storage/out.mp4",
      some "http://storage/thumb.jpg", 100, none⟩ ∧
    completedJob.status ≠ JStatus.draft ∧
    JStatus.rendering ≠ JStatus.completed :=
  ⟨rfl, by decide, by decide⟩

/-- Claim C2 (amended): the `draft → rendering` transition is not guarded
on the current status: for any job state and positive credit balance the
endpoint unconditionally sets `status = "rendering"` and succeeds, and a
second start on the already-rendering job succeeds again - there is no
`JobAlreadyRendering`/`JobAlreadyTerminal`/`AlreadyRunning` error and both
of two start attempts on the same draft job transition it to `rendering`. -/
theorem c2_amended (s : JobState) (credits : Int) (h : 0 < credits) :
    startRender credits s = .ok { s with status := .rendering } ∧
    startRender credits { s with status := .rendering } =
      .ok { s with status := .rendering } := by
  have hn : ¬ credits ≤ 0 := by omega
  exact ⟨by unfold startRender; rw [if_neg hn], by unfold startRender; rw [if_neg hn]⟩

/-- Claim C2 amended, witnessed on a completed job with one credit. -/
theorem c2_amended_witness :
    startRender 1 completedJob = .ok { completedJob with status := .rendering } ∧
    startRender 1 { completedJob with status := .rendering } =
      .ok { completedJob with status := .rendering } :=
  c2_amended completedJob 1 (by decide)

/-! ## Claim theorems: output-URL invariant -/

/-- Claim C5 counterexample: because the start endpoint is unguarded, the
state `(status = rendering, outputUrl = some …)` is reachable - create the
job, start it, let the render complete (setting the output URL), then start
it again; the claimed invariant `outputUrl set ↔ completed` fails there. -/
theorem c5_counterexample :
    Reachable ⟨.rendering, some "http://storage/out.mp4", some "http://storage/thumb.jpg",
      100, none⟩ ∧
    JStatus.rendering ≠ JStatus.completed ∧
    some "http://storage/out.mp4" ≠ (none : Option String) := by
  refine ⟨?_, by decide, by decide⟩
  have h1 : Reachable initialJob := .created
  have h2 : Reachable startedJob := .started initialJob startedJob 1 h1 rfl
  have h3 : Reachable completedJob :=
    .serviced startedJob completedJob envOk trivialTemplate .nil "/tmp/job" h2 (by decide)
  exact .started completedJob _ 1 h3 rfl

/-- Every state committed by one background render of a `rendering` job
without a published output satisfies the output-URL invariant. -/
theorem renderServiceStates_inv (env : RenderEnv) (template : TemplateRec)
    (customizations : JFields) (tmpDir : String) (s s' : JobState)
    (hst : s.status = .rendering) (hurl : s.outputUrl = none)
    (hmem : s' ∈ renderServiceStates env template customizations tmpDir s) :
    (s'.outputUrl ≠ none ↔ s'.status = .completed) := by
  unfold renderServiceStates at hmem
  cases htf : env.templateFound with
  | false =>
    simp [htf] at hmem
    subst hmem
    simp [hurl, hst]
  | true =>
    simp [htf] at hmem
    cases hpa : prepareAssets env.fetch tmpDir customizations with
    | error e =>
      simp [hpa] at hmem
      rcases hmem with rfl | rfl <;> simp [hurl, hst]
    | ok assetPaths =>
      simp [hpa] at hmem
      cases hrc : renderVideoCompile template customizations assetPaths tmpDir with
      | error e =>
        simp [hrc] at hmem
        rcases hmem with rfl | rfl | rfl <;> simp [hurl, hst]
      | ok r =>
        simp [hrc] at hmem
        cases hek : env.encodeOk with
        | false =>
          simp [hek] at hmem
          rcases hmem with rfl | rfl | rfl <;> simp [hurl, hst]
        | true =>
          simp [hek] at hmem
          rcases hmem with rfl | rfl | rfl | rfl <;> simp [hurl, hst]

/-- Claim C5 (amended): along lifecycles that respect the spec's start
guard - the job is started only from `draft` and each background render
runs on the freshly started `rendering` job - every observable state
satisfies `outputUrl` set if and only if `status = completed`; the
invariant breaks only through the unguarded re-start of a finished job. -/
theorem c5_amended (s : JobState) (h : GuardedReachable s) :
    s.outputUrl ≠ none ↔ s.status = .completed := by
  induction h with
  | created => simp [initialJob]
  | started s s' credits hr hdraft hstart ih =>
    unfold startRender at hstart
    by_cases hc : credits ≤ 0
    · rw [if_pos hc] at hstart; cases hstart
    · rw [if_neg hc] at hstart
      injection hstart with h'
      subst h'
      have hnone : s.outputUrl = none := by
        by_contra hne
        exact (by decide : JStatus.draft ≠ .completed) (hdraft.symm.trans (ih.mp hne))
      simp [hnone]
  | serviced s s' env template customizations tmpDir hr hrend hmem ih =>
    have hnone : s.outputUrl = none := by
      by_contra hne
      exact (by decide : JStatus.rendering ≠ .completed) (hrend.symm.trans (ih.mp hne))
    exact renderServiceStates_inv env template customizations tmpDir s s' hrend hnone hmem

/-- Claim C5 amended, witnessed at the freshly created draft job. -/
theorem c5_amended_witness :
    initialJob.outputUrl ≠ none ↔ initialJob.status = .completed :=
  c5_amended initialJob GuardedReachable.created

/-! ## Claim theorems: z-order -/

/-- Filtering on a fixed key commutes with `insertByZ`: the inserted layer
lands in front of the equal-key elements (it comes from earlier in the
declaration order than everything already inserted) and nothing else
moves. -/
theorem insertByZ_filter (x : JValue) (k : Int) : ∀ l : List JValue,
    (insertByZ x l).filter (fun y => zKey y == k) =
      if zKey x == k then x :: l.filter (fun y => zKey y == k)
      else l.filter (fun y => zKey y == k) := by
  intro l
  induction l with
  | nil => by_cases h : zKey x == k <;> simp [insertByZ, h]
  | cons y ys ih =>
    unfold insertByZ
    by_cases hlt : zKey y < zKey x
    · rw [if_pos hlt]
      by_cases hy : zKey y == k
      · by_cases hx : zKey x == k
        · exfalso
          have h1 : zKey y = k := by simpa using hy
          have h2 : zKey x = k := by simpa using hx
          omega
        · simp [List.filter_cons, hy, hx, ih]
      · simp [List.filter_cons, hy, ih]
    · rw [if_neg hlt]
      by_cases hx : zKey x == k
      · simp [List.filter_cons, hx]
      · simp [List.filter_cons, hx]

/-- Stability of the layer sort: for every z value, the subsequence of
layers with that key is exactly the declaration-order subsequence. -/
theorem sortLayersByZ_filter (k : Int) : ∀ l : List JValue,
    (sortLayersByZ l).filter (fun y => zKey y == k) = l.filter (fun y => zKey y == k) := by
  intro l
  induction l with
  | nil => rfl
  | cons x xs ih =>
    show (insertByZ x (sortLayersByZ xs)).filter _ = _
    rw [insertByZ_filter, ih]
    by_cases hx : zKey x == k
    · rw [if_pos hx]
      simp [List.filter_cons, hx]
    · rw [if_neg hx]
      simp [List.filter_cons, hx]

/-- Membership after insertion. -/
theorem mem_insertByZ {y x : JValue} : ∀ {l : List JValue},
    y ∈ insertByZ x l → y = x ∨ y ∈ l := by
  intro l
  induction l with
  | nil =>
    intro h
    simp [insertByZ] at h
    exact Or.inl h
  | cons z zs ih =>
    intro h
    unfold insertByZ at h
    by_cases hlt : zKey z < zKey x
    · rw [if_pos hlt] at h
      rcases List.mem_cons.mp h with rfl | h'
      · exact Or.inr (List.mem_cons_self _ _)
      · rcases ih h' with rfl | hm
        · exact Or.inl rfl
        · exact Or.inr (List.mem_cons_of_mem _ hm)
    · rw [if_neg hlt] at h
      rcases List.mem_cons.mp h with rfl | h'
      · exact Or.inl rfl
      · exact Or.inr h'

/-- Insertion preserves sortedness by `zKey`. -/
theorem insertByZ_pairwise (x : JValue) : ∀ l : List JValue,
    l.Pairwise (fun a b => zKey a ≤ zKey b) →
    (insertByZ x l).Pairwise (fun a b => zKey a ≤ zKey b) := by
  intro l
  induction l with
  | nil => intro _; simp [insertByZ]
  | cons z zs ih =>
    intro hp
    rcases List.pairwise_cons.mp hp with ⟨hz, hzs⟩
    unfold insertByZ
    by_cases hlt : zKey z < zKey x
    · rw [if_pos hlt]
      refine List.pairwise_cons.mpr ⟨?_, ih hzs⟩
      intro b hb
      rcases mem_insertByZ hb with rfl | hbz
      · exact le_of_lt hlt
      · exact hz b hbz
    · rw [if_neg hlt]
      have hxz : zKey x ≤ zKey z := le_of_not_lt hlt
      refine List.pairwise_cons.mpr ⟨?_, hp⟩
      intro b hb
      rcases List.mem_cons.mp hb with rfl | hbz
      · exact hxz
      · exact le_trans hxz (hz b hbz)

/-- The sorted layer list is ascending in `zKey`. -/
theorem sortLayersByZ_sorted : ∀ l : List JValue,
    (sortLayersByZ l).Pairwise (fun a b => zKey a ≤ zKey b) := by
  intro l
  induction l with
  | nil => simp [sortLayersByZ]
  | cons x xs ih => exact insertByZ_pairwise x (sortLayersByZ xs) ih

/-- Claim C9: the compiler composites layers in ascending z order with a
stable sort - the sorted list is ascending in the `int(l.get("z") or 0)`
key and, for every key value, equal-z layers keep their declaration order -
and for the template declaring `z=2` (imgA, input 1) before `z=1` (imgB,
input 2), the compiled chain overlays input 2 onto the background first and
input 1 on top of it, i.e. the z=1 layer sits beneath the z=2 layer. -/
theorem c9_stable_z_order :
    (∀ (l : List JValue) (k : Int),
      (sortLayersByZ l).filter (fun y => zKey y == k) = l.filter (fun y => zKey y == k)) ∧
    (∀ l : List JValue, (sortLayersByZ l).Pairwise (fun a b => zKey a ≤ zKey b)) ∧
    sortLayersByZ [layerA, layerB] = [layerB, layerA] ∧
    renderVideoCompile twoLayerTemplate custBoth
        [("img1", "/tmp/job/img1.png"), ("img2", "/tmp/job/img2.png")] "/tmp/job" =
      .ok ⟨["-y", "-f", "lavfi", "-i", "color=c=black:s=1080x1920:r=30:d=5",
            "-loop", "1", "-i", "/tmp/job/img1.png", "-loop", "1", "-i", "/tmp/job/img2.png"],
           ["[0:v]format=rgba[base]",
            "[2:v]format=rgba[ov0]",
            "[base][ov0]overlay=x=0:y=0:enable=\x27between(t\\,0.0\\,5.0)\x27[v0]",
            "[1:v]format=rgba[ov1]",
            "[v0][ov1]overlay=x=0:y=0:enable=\x27between(t\\,0.0\\,5.0)\x27[v1]"],
           "[v1]"⟩ :=
  ⟨fun l k => sortLayersByZ_filter k l, sortLayersByZ_sorted, rfl, rfl⟩

/-! ## Claim theorems: missing assets -/

/-- Claim C1 counterexample: a template with two image layers where one
asset URL returns 404 does not render successfully - `_prepare_assets`
raises on `raise_for_status()`, the exception is caught by
`render_template`, and the job ends `failed` without any compilation of the
surviving layer; the missing asset is a fatal error for the whole render. -/
theorem c1_counterexample :
    prepareAssets fetch404 "/tmp/job" custBoth =
      .error "HTTP error 404 for url http://cdn.example/b.png" ∧
    renderServiceStates env404 twoLayerTemplate custBoth "/tmp/job" startedJob =
      [⟨.rendering, none, none, 10, none⟩,
       ⟨.failed, none, none, 10, some "HTTP error 404 for url http://cdn.example/b.png"⟩] :=
  ⟨rfl, rfl⟩

/-- Claim C1 (amended): a video/image layer whose source was never
materialized into a local input (absent from `asset_paths`) is silently
omitted from the filter chain - the overlay loop leaves the chain state
unchanged for it - and compilation and rendering complete successfully with
the remaining layers; but an asset URL whose download fails (e.g. a 404)
raises during `_prepare_assets` and the whole render is marked failed
rather than degrading gracefully. -/
theorem c1_amended :
    (∀ (cc : ChainCtx) (st : ChainState) (layer : JValue),
      (jBeq ((jGet layer "type").getD .null) (.str "video") ||
        jBeq ((jGet layer "type").getD .null) (.str "image")) = true →
      jmapGet cc.imap ((jGet layer "id").getD .null) = none →
      overlayStep cc st layer = .ok st) ∧
    renderVideoCompile twoLayerTemplate custOneLocal [("img1", "/tmp/job/img1.png")]
        "/tmp/job" =
      .ok ⟨["-y", "-f", "lavfi", "-i", "color=c=black:s=1080x1920:r=30:d=5",
            "-loop", "1", "-i", "/tmp/job/img1.png"],
           ["[0:v]format=rgba[base]",
            "[1:v]format=rgba[ov0]",
            "[base][ov0]overlay=x=0:y=0:enable=\x27between(t\\,0.0\\,5.0)\x27[v0]"],
           "[v0]"⟩ ∧
    renderServiceStates envOk twoLayerTemplate custOneLocal "/tmp/job" startedJob =
      [⟨.rendering, none, none, 10, none⟩, ⟨.rendering, none, none, 40, none⟩,
       ⟨.rendering, none, none, 80, none⟩,
       ⟨.completed, some "http://storage/out.mp4", some "http://storage/thumb.jpg", 100,
         none⟩] ∧
    renderServiceStates env404 twoLayerTemplate custBoth "/tmp/job" startedJob =
      [⟨.rendering, none, none, 10, none⟩,
       ⟨.failed, none, none, 10, some "HTTP error 404 for url http://cdn.example/b.png"⟩] := by
  refine ⟨?_, rfl, rfl, rfl⟩
  intro cc st layer hty hid
  simp [overlayStep, hty, hid]
  rfl

/-- Claim C1 amended, witnessed on the un-materialized image layer with an
empty input map. -/
theorem c1_amended_witness :
    overlayStep ccEmpty st0 layerB = .ok st0 :=
  c1_amended.1 ccEmpty st0 layerB (by decide) rfl

end Scriptr
